import Mathlib

/-!
Verification of the core of `knowledge_agent.py` (class `EnhancedKnowledgeAgent`):
document chunking, vector-index construction, similarity search with result
resolution, the recent-search buffer, time extraction, intent dispatch, and the
exception behaviour of the entry points `add_document` and `chat`.

The Python code is shallowly embedded: mutable attributes of the agent object
become an explicit `AgentState` record that functions take and return; code that
can raise returns `Except String`; NumPy arrays become `List Rat`; the SQLite
`documents` table becomes a `List DbRow`.  External collaborators (the embedding
model, the Ollama generative backend, the Google calendar and Gmail services)
are parameters of the functions that call them, so every theorem quantifies over
their behaviour.  FAISS `IndexFlatIP` is modelled by `faissSearchIP` following
the documented FAISS semantics (exact inner-product top-k search, results padded
with label -1 when fewer than k vectors are stored).
-/

set_option maxRecDepth 4000

/-! ### Python string helpers

Structural models of the Python string primitives the agent uses, written as
plain structural recursions so that concrete inputs evaluate inside the kernel.
-/

/-- Model of Python `str.split()` with no argument (used by `chunk_text`):
split on runs of whitespace, discarding empty pieces, so leading and trailing
whitespace produce no tokens.  `acc` holds the characters of the current token
in reverse order. -/
def splitWsAux : List Char → List Char → List String
  | [], acc => if acc.isEmpty then [] else [String.mk acc.reverse]
  | c :: cs, acc =>
    if c.isWhitespace then
      if acc.isEmpty then splitWsAux cs [] else String.mk acc.reverse :: splitWsAux cs []
    else splitWsAux cs (c :: acc)

/-- Python `text.split()` on a `String`. -/
def pySplit (text : String) : List String :=
  splitWsAux text.data []

/-- Model of Python `' '.join(words)`: the words joined by single spaces. -/
def joinSpace : List String → String
  | [] => ""
  | [w] => w
  | w :: ws => w ++ " " ++ joinSpace ws

/-- Model of Python `str.strip()`: drop whitespace from both ends. -/
def pyStrip (s : String) : String :=
  String.mk (((s.data.dropWhile Char.isWhitespace).reverse.dropWhile Char.isWhitespace).reverse)

/-- Model of Python `str.upper()` (the agent only compares ASCII labels). -/
def pyUpper (s : String) : String :=
  String.mk (s.data.map Char.toUpper)

/-- Containment of `pat` in `s` as a contiguous subsequence, the model of the
Python `in` operator on strings. -/
def containsSub (pat : List Char) : List Char → Bool
  | [] => pat.isEmpty
  | c :: cs => pat.isPrefixOf (c :: cs) || containsSub pat cs

/-- Python `pat in s` for strings. -/
def strContains (s pat : String) : Bool :=
  containsSub pat.data s.data

/-- Model of Python list subscripting `l[i]` with an `int` index: nonnegative
indices count from the front, negative indices count from the back, and an
index out of range on either side gives `none` (an `IndexError` in Python). -/
def pyGet {α : Type} (l : List α) (i : Int) : Option α :=
  if 0 ≤ i then l.get? i.toNat
  else if 0 ≤ (l.length : Int) + i then l.get? ((l.length : Int) + i).toNat
  else none

/-- Decimal value of a digit run, the model of Python `int` applied to a string
of digits (as produced by `re.findall` with a digit-run pattern). -/
def natOfDigits (l : List Char) : Nat :=
  l.foldl (fun n c => 10 * n + (c.toNat - '0'.toNat)) 0

/-- First maximal run of decimal digits in a character list, or `none` when the
list has no digit.  `re.findall` with the digit-run pattern returns exactly the
maximal digit runs in order, so its first element is this run. -/
def firstDigitRun (s : List Char) : Option (List Char) :=
  match s.dropWhile (fun c => !c.isDigit) with
  | [] => none
  | c :: cs => some ((c :: cs).takeWhile Char.isDigit)

/-! ### Data model -/

/-- An embedding vector (a NumPy float row becomes a list of rationals). -/
abbrev Vec := List Rat

/-- One row of the SQLite `documents` table: columns `id` (autoincrement
primary key), `title`, `content` (one chunk), `source`, `chunk_id` (the
0-based index of the chunk within its document).  The `created_at` timestamp
column is never read by the agent and is omitted. -/
structure DbRow where
  id : Int
  title : String
  content : String
  source : String
  chunk_id : Nat
deriving DecidableEq, Repr

/-- One entry of the `results` list assembled by `search_knowledge_base`. -/
structure RetrievalResult where
  content : String
  title : String
  source : String
  relevance_score : Rat
deriving DecidableEq, Repr

/-- One record of `self.recent_knowledge_searches`. -/
structure SearchRec where
  query : String
  results : List RetrievalResult
  timestamp : Nat
deriving DecidableEq, Repr

/-- The mutable attributes of `EnhancedKnowledgeAgent` that the verified core
reads and writes: `self.vector_index` (`none` models Python `None`; `some vs`
models a FAISS `IndexFlatIP` holding the vectors `vs` in insertion order),
`self.document_chunks`, and `self.recent_knowledge_searches`. -/
structure AgentState where
  vector_index : Option (List Vec)
  document_chunks : List (Int × String)
  recent_knowledge_searches : List SearchRec
deriving DecidableEq, Repr

/-! ### Embedding pipeline -/

/-- Model of NumPy `arr.astype('float32')`: `astype` defaults to `copy=True`,
so it returns a fresh array holding the same values; the result is a new
object, not an alias of the argument. -/
def astypeFloat32 (v : Vec) : Vec := v.map id

/-- Sum of squares of a vector; a vector has unit length exactly when this
is `1`. -/
def sumSq (v : Vec) : Rat := (v.map fun x => x * x).sum

/-- Inner product of two vectors (FAISS `IndexFlatIP` similarity). -/
def innerProd (q v : Vec) : Rat := (List.zipWith (fun a b => a * b) q v).sum

/-- The score FAISS reports for padding entries when fewer than `k` vectors
are stored (the lowest representable float); no theorem depends on its
value, only on the padding label `-1`. -/
def padScore : Rat := -(2 ^ 128)

/-- Insert one `(label, score)` pair into a list sorted by descending score. -/
def insertByScore (x : Int × Rat) : List (Int × Rat) → List (Int × Rat)
  | [] => [x]
  | y :: ys => if y.2 < x.2 then x :: y :: ys else y :: insertByScore x ys

/-- Sort `(label, score)` pairs by descending score. -/
def sortByScoreDesc (l : List (Int × Rat)) : List (Int × Rat) :=
  l.foldr insertByScore []

/-- Model of FAISS `IndexFlatIP.search` for one query vector: score every
stored vector by inner product with the query, return the `k` best
`(label, score)` pairs in descending score order, padding with label `-1`
when fewer than `k` vectors are stored (documented FAISS behaviour). -/
def faissSearchIP (stored : List Vec) (q : Vec) (k : Nat) : List (Int × Rat) :=
  let scored := stored.enum.map fun p => ((p.1 : Int), innerProd q p.2)
  let best := (sortByScoreDesc scored).take k
  best ++ List.replicate (k - best.length) ((-1 : Int), padScore)

/-! ### chunk_text (knowledge_agent.py lines 138-150) -/

/-- The `for i in range(0, len(words), chunk_size - overlap)` loop of
`chunk_text`: at index `i` it appends `' '.join(words[i:i + chunk_size])` and
breaks after doing so once `i + chunk_size >= len(words)`.  The loop runs at
most `words.length` iterations (the step is positive whenever
`overlap < chunk_size`), so `fuel = words.length` at the top-level call is
enough fuel; the first argument only encodes termination. -/
def chunkLoop (words : List String) (chunk_size step : Nat) : Nat → Nat → List String
  | 0, _ => []
  | fuel + 1, i =>
    if i < words.length then
      let chunk := joinSpace ((words.drop i).take chunk_size)
      if words.length ≤ i + chunk_size then [chunk]
      else chunk :: chunkLoop words chunk_size step fuel (i + step)
    else []

/-- `chunk_text(text, chunk_size, overlap)`: split into whitespace tokens and
emit overlapping windows. -/
def chunk_text (text : String) (chunk_size overlap : Nat) : List String :=
  let words := pySplit text
  chunkLoop words chunk_size (chunk_size - overlap) words.length 0

/-- The chunk count asserted by the specification: the ceiling of
`(W - O) / (S - O)` computed over the rationals (so it can be zero or negative
when `W ≤ O`). -/
def claimedCount (W S O : Nat) : Int :=
  ⌈((W : Rat) - (O : Rat)) / ((S : Rat) - (O : Rat))⌉

/-! ### build_vector_index (knowledge_agent.py lines 152-175)

The Python method mutates `self` stepwise: it replaces `self.document_chunks`
with the freshly selected rows (line 164), then calls the embedding
collaborator (line 167; this call can raise, and by then the parallel list has
already been replaced), then installs a fresh index and adds the embeddings
(lines 170-173).  Line 172, `faiss.normalize_L2(embeddings.astype('float32'))`,
normalizes in place a fresh `astype` copy of the embedding matrix and discards
it, so the vectors added to the index on line 173 are the raw, unnormalized
embeddings; the model keeps the call (with the normalization function abstract,
since its output is never used) to mirror that dataflow.

The returned pair is the state after the method and `some e` when the method
raised the exception `e` part-way (mutations made before the raise persist). -/
def build_vector_index (normalizeL2 : List Vec → List Vec)
    (encode : List String → Except String (List Vec))
    (db : List DbRow) (st : AgentState) : AgentState × Option String :=
  let rows := db.map fun r => (r.id, r.content)
  if rows.isEmpty then (st, none)
  else
    let st1 := { st with document_chunks := rows }
    match encode (rows.map Prod.snd) with
    | .error e => (st1, some e)
    | .ok embeddings =>
      let _discardedCopy := normalizeL2 (embeddings.map astypeFloat32)
      ({ st1 with vector_index := some (embeddings.map astypeFloat32) }, none)

/-! ### search_knowledge_base (knowledge_agent.py lines 184-232) -/

/-- The sentinel returned when the index is absent or the parallel list is
empty (line 187). -/
def emptyKbMsg : String := "Knowledge base is empty. Please add some documents first."

/-- The sentinel returned when the hit-resolution loop produced no results
(line 232). -/
def noRelevantMsg : String := "No relevant information found in the knowledge base."

/-- Resolution of a single `(idx, score)` hit (lines 196-212): the guard
`idx < len(self.document_chunks)` admits any index below the length, including
the negative padding label `-1`, which Python subscripting then resolves from
the back of the list; an index admitted by the guard but below `-len` would
raise `IndexError` (`.error`).  A hit whose guard fails, or whose chunk id has
no row in the `documents` table, contributes nothing (`.ok none`). -/
def resolveHit (db : List DbRow) (chunks : List (Int × String)) (hit : Int × Rat) :
    Except String (Option RetrievalResult) :=
  if hit.1 < (chunks.length : Int) then
    match pyGet chunks hit.1 with
    | none => .error "IndexError: list index out of range"
    | some dc =>
      match db.find? fun r => r.id == dc.1 with
      | some r =>
        .ok (some { content := dc.2, title := r.title, source := r.source,
                    relevance_score := hit.2 })
      | none => .ok none
  else .ok none

/-- The `for i, (score, idx) in enumerate(zip(scores[0], indices[0]))` loop
(lines 195-212), accumulating the `results` list in order. -/
def resolveHits (db : List DbRow) (chunks : List (Int × String)) :
    List (Int × Rat) → Except String (List RetrievalResult)
  | [] => .ok []
  | h :: hs => do
    let r ← resolveHit db chunks h
    let rest ← resolveHits db chunks hs
    match r with
    | some x => .ok (x :: rest)
    | none => .ok rest

/-- Lines 189-212 of `search_knowledge_base`: embed the query (modelled by the
collaborator parameter `encodeQ`, standing for
`self.embedding_model.encode([query])[0]`, which can raise), normalize a
discarded `astype` copy of it (line 190, same dataflow as in the index build),
search the index with the raw query embedding, and resolve the hits. -/
def searchResults (normalizeL2 : Vec → Vec) (encodeQ : String → Except String Vec)
    (db : List DbRow) (stored : List Vec) (chunks : List (Int × String))
    (query : String) (top_k : Nat) : Except String (List RetrievalResult) := do
  let q ← encodeQ query
  let _discardedCopy := normalizeL2 (astypeFloat32 q)
  resolveHits db chunks (faissSearchIP stored (astypeFloat32 q) top_k)

/-- Rendering of a relevance score.  Python prints the float with three
decimals; the exact text is irrelevant to every claim, so the rational is
rendered with `toString`. -/
def formatScore (q : Rat) : String := toString q

/-- The `formatted_results` string built on lines 225-230. -/
def formatResults (results : List RetrievalResult) : String :=
  "Found relevant information:\n\n" ++
    String.join (results.enum.map fun p =>
      "Document " ++ toString (p.1 + 1) ++ ": " ++ p.2.title ++ "\n" ++
      "Content: " ++ p.2.content ++ "\n" ++
      "Relevance: " ++ formatScore p.2.relevance_score ++ "\n\n")

/-- `search_knowledge_base(query, top_k)` (lines 184-232).  Returns the reply
string together with the state after the call; `.error` models an uncaught
Python exception escaping the method (the method has no `try` of its own).
On a successful search with nonempty results the method appends a record to
`self.recent_knowledge_searches` and truncates that list to its last five
entries (lines 214-223, Python `list[-5:]`). -/
def search_knowledge_base (normalizeL2 : Vec → Vec)
    (encodeQ : String → Except String Vec) (db : List DbRow) (now : Nat)
    (st : AgentState) (query : String) (top_k : Nat) :
    Except String (String × AgentState) :=
  match st.vector_index with
  | none => .ok (emptyKbMsg, st)
  | some stored =>
    if st.document_chunks.length = 0 then .ok (emptyKbMsg, st)
    else do
      let results ← searchResults normalizeL2 encodeQ db stored st.document_chunks query top_k
      if results.isEmpty then .ok (noRelevantMsg, st)
      else
        let searchInfo : SearchRec := { query := query, results := results, timestamp := now }
        let appended := st.recent_knowledge_searches ++ [searchInfo]
        .ok (formatResults results,
             { st with recent_knowledge_searches := appended.drop (appended.length - 5) })

/-! ### add_document (knowledge_agent.py lines 119-136)

The method chunks the content, inserts one row per chunk (committed before the
index rebuild), then calls `build_vector_index` and prints a message.  It has
no `try`/`except` and no `return` statement: an exception raised by the
rebuild (for example by the embedding collaborator) propagates to the caller,
and on success the method returns Python `None`.  The outcome component is
therefore `.ok none` on success (`None`, never a chunk count) and `.error e`
when an exception escaped; the inserted rows receive the autoincrement ids
`nextId`, `nextId + 1`, ... . -/
def add_document (normalizeL2 : List Vec → List Vec)
    (encode : List String → Except String (List Vec))
    (db : List DbRow) (nextId : Int) (st : AgentState)
    (title content source : String) :
    List DbRow × AgentState × Except String (Option Nat) :=
  let chunks := chunk_text content 500 50
  let newRows := chunks.enum.map fun p =>
    { id := nextId + (p.1 : Int), title := title, content := p.2,
      source := source, chunk_id := p.1 : DbRow }
  let db2 := db ++ newRows
  let result := build_vector_index normalizeL2 encode db2 st
  (db2, result.1,
    match result.2 with
    | some e => .error e
    | none => .ok none)

/-! ### call_ollama (knowledge_agent.py lines 489-503) and prompts -/

/-- `call_ollama(prompt)`: the generative collaborator `gen` models the HTTP
round trip plus JSON extraction; the method catches every exception and turns
it into an `Error calling Ollama: ...` string, so it never raises. -/
def call_ollama (gen : String → Except String String) (prompt : String) : String :=
  match gen prompt with
  | .ok r => r
  | .error e => "Error calling Ollama: " ++ e

/-- The intent-classification prompt of lines 254-272 (instructional text
abbreviated; no theorem depends on the wording, only on the substring tests
applied to the response). -/
def intentPrompt (context message : String) : String :=
  context ++ "Current user message: \"" ++ message ++ "\"\n\n" ++
    "Based on the conversation context and current message, determine the intent. " ++
    "Return only one word: SHOW_CALENDAR, CREATE_EMAIL, or KNOWLEDGE_SEARCH"

/-- The time-period prompt assigned on lines 300-313.  Lines 285-299 build an
unrelated candidate-extraction prompt that is immediately overwritten by this
assignment and never sent, so it is not modelled. -/
def timePrompt (message : String) : String :=
  "What time period is mentioned in this message: \"" ++ message ++ "\"\n" ++
    "Reply with only one number: 1 for today, 2 for tomorrow, 7 for this week, " ++
    "14 for next week, 30 for this month, 7 if no time mentioned\n" ++
    "Message: \"" ++ message ++ "\"\nAnswer:"

/-- The email-details prompt of lines 392-406 (abbreviated as above). -/
def emailContextPrompt (context message : String) : String :=
  context ++ "Current user message: \"" ++ message ++ "\"\n\n" ++
    "Extract email details from the request and describe the email to create."

/-- The answer-generation prompt of lines 534-544 (abbreviated as above). -/
def kbAnswerPrompt (context message results : String) : String :=
  context ++ "\nYou are a helpful company assistant.\n\nCurrent User Question: " ++
    message ++ "\n\nKnowledge Base Results:\n" ++ results ++
    "\n\nProvide a natural, helpful response."

/-! ### build_conversation_context (knowledge_agent.py lines 234-248) -/

/-- `build_conversation_context(chat_history, max_exchanges)`: empty history
gives the empty string; otherwise the last `max_exchanges * 2` turns are
rendered, user turns verbatim and agent turns truncated to 200 characters with
a `...` marker. -/
def build_conversation_context (chat_history : List (String × String))
    (max_exchanges : Nat) : String :=
  if chat_history.isEmpty then ""
  else
    let recent :=
      if chat_history.length > max_exchanges * 2 then
        chat_history.drop (chat_history.length - max_exchanges * 2)
      else chat_history
    let body := String.join (recent.map fun rm =>
      if rm.1 = "user" then "User: " ++ rm.2 ++ "\n"
      else if rm.2.length > 200 then "Agent: " ++ rm.2.take 200 ++ "...\n"
      else "Agent: " ++ rm.2 ++ "\n")
    "Recent conversation:\n" ++ body ++ "\n"

/-! ### detect_user_intent_with_context (knowledge_agent.py lines 250-281) -/

/-- Intent classification: send the prompt, uppercase and strip the response,
test for the label substrings in fixed order, and default to
`KNOWLEDGE_SEARCH`. -/
def detect_user_intent_with_context (gen : String → Except String String)
    (message : String) (chat_history : List (String × String)) : String :=
  let context := if chat_history.isEmpty then ""
                 else build_conversation_context chat_history 3
  let response := pyUpper (pyStrip (call_ollama gen (intentPrompt context message)))
  if strContains response "SHOW_CALENDAR" then "SHOW_CALENDAR"
  else if strContains response "CREATE_EMAIL" then "CREATE_EMAIL"
  else "KNOWLEDGE_SEARCH"

/-! ### extract_time_context (knowledge_agent.py lines 283-321) -/

/-- `extract_time_context(message)`: strip the collaborator response, take the
first integer token found by `re.findall` with the digit-run pattern, default
to `7` when the response has no digit.  Every step is total, matching the
Python code, which cannot raise here (`call_ollama` already catches). -/
def extract_time_context (gen : String → Except String String) (message : String) : Nat :=
  let response := pyStrip (call_ollama gen (timePrompt message))
  match firstDigitRun response.data with
  | some run => natOfDigits run
  | none => 7

/-! ### calendar and email branches (knowledge_agent.py lines 323-487)

These two methods talk to the Google services.  Their interiors (API calls and
rendering, including a nested knowledge-base search inside each `try` block)
are abstracted as collaborator computations that either return a rendered
string or raise; the guard clauses and the `try`/`except` skeleton — the parts
the error-handling claims are about — are translated faithfully. -/

/-- The two `except` arms of `get_upcoming_calendar_events`: `HttpError`
(line 383) and any other exception (line 385). -/
inductive CalendarErr where
  | http (msg : String)
  | other (msg : String)
deriving DecidableEq, Repr

/-- `get_upcoming_calendar_events(days_ahead)` (lines 323-386): the guard for a
missing calendar service, then the `try` block (abstracted as `body`), whose
exceptions are converted to error strings by the two `except` arms. -/
def get_upcoming_calendar_events (calConnected : Bool)
    (body : Nat → Except CalendarErr String) (days_ahead : Nat) : String :=
  if !calConnected then "Google Calendar not connected. Please set up authentication first."
  else
    match body days_ahead with
    | .ok s => s
    | .error (.http e) => "An error occurred while fetching calendar events: " ++ e
    | .error (.other e) => "Error accessing Google Calendar: " ++ e

/-- `extract_email_context(message, chat_history)` (lines 388-409): one
generative call whose stripped response becomes the `email_intent` value. -/
def extract_email_context (gen : String → Except String String)
    (message : String) (chat_history : List (String × String)) : String :=
  let context := if chat_history.isEmpty then ""
                 else build_conversation_context chat_history 3
  pyStrip (call_ollama gen (emailContextPrompt context message))

/-- `create_gmail_draft(email_details)` (lines 411-475): the guard for a
missing Gmail service, then the `try` block (abstracted as `body`, applied to
the email intent), whose exceptions become an error string (line 474). -/
def create_gmail_draft (gmailConnected : Bool)
    (body : String → Except String String) (email_intent : String) : String :=
  if !gmailConnected then "Gmail not connected. Please set up authentication first."
  else
    match body email_intent with
    | .ok s => s
    | .error e => "Error creating email draft: " ++ e

/-! ### chat (knowledge_agent.py lines 505-550) -/

/-- The body of the `try` block of `chat` (lines 508-547): classify the
intent, then dispatch to the calendar branch, the email branch, or the
knowledge-search branch.  Only the knowledge-search branch can raise (through
`search_knowledge_base`, whose embedding call is unguarded); the state
component carries the recent-search mutation made by that branch. -/
def chat_body (gen : String → Except String String) (normalizeL2 : Vec → Vec)
    (encodeQ : String → Except String Vec) (db : List DbRow) (now : Nat)
    (calConnected : Bool) (calBody : Nat → Except CalendarErr String)
    (gmailConnected : Bool) (gmailBody : String → Except String String)
    (st : AgentState) (user_message : String)
    (chat_history : List (String × String)) : Except String (String × AgentState) :=
  let intent := detect_user_intent_with_context gen user_message chat_history
  if intent = "SHOW_CALENDAR" then
    let days := extract_time_context gen user_message
    .ok (get_upcoming_calendar_events calConnected calBody days, st)
  else if intent = "CREATE_EMAIL" then
    let email_details := extract_email_context gen user_message chat_history
    .ok (create_gmail_draft gmailConnected gmailBody email_details, st)
  else do
    let sr ← search_knowledge_base normalizeL2 encodeQ db now st user_message 3
    let context := build_conversation_context chat_history 3
    .ok (call_ollama gen (kbAnswerPrompt context user_message sr.1), sr.2)

/-- `chat(user_message, chat_history)`: the whole dispatch runs inside
`try`/`except Exception`, whose arm returns the apologetic string (line 550),
so the method always returns a string.  An exception can only be raised before
any state mutation of the knowledge-search branch, so the state reported with
the apologetic string is the entry state. -/
def chat (gen : String → Except String String) (normalizeL2 : Vec → Vec)
    (encodeQ : String → Except String Vec) (db : List DbRow) (now : Nat)
    (calConnected : Bool) (calBody : Nat → Except CalendarErr String)
    (gmailConnected : Bool) (gmailBody : String → Except String String)
    (st : AgentState) (user_message : String)
    (chat_history : List (String × String)) : String × AgentState :=
  match chat_body gen normalizeL2 encodeQ db now calConnected calBody
      gmailConnected gmailBody st user_message chat_history with
  | .ok r => r
  | .error e => ("Sorry, I encountered an error: " ++ e, st)

/-! ### Concrete fixtures used by witnesses and counterexamples -/

/-- The initial agent state: no index, empty parallel list, no recent
searches (constructor, lines 33-47). -/
def stEmpty : AgentState :=
  { vector_index := none, document_chunks := [], recent_knowledge_searches := [] }

/-- A state holding a previously built index over one chunk `(1, "old")`. -/
def stOld : AgentState :=
  { vector_index := some [[1]], document_chunks := [(1, "old")], recent_knowledge_searches := [] }

/-- A `documents` table holding one fresh chunk row with id 2. -/
def dbNew : List DbRow :=
  [{ id := 2, title := "T", content := "new", source := "S", chunk_id := 0 }]

/-- A `documents` table holding a single chunk row `"c"` with id 1. -/
def dbOne : List DbRow :=
  [{ id := 1, title := "T", content := "c", source := "S", chunk_id := 0 }]

/-- A state whose index and parallel list were built from `dbOne` with a
zero-dimensional embedding for the single chunk (a degenerate but legitimate
black-box embedding, chosen so that concrete searches evaluate by `rfl`). -/
def stOne : AgentState :=
  { vector_index := some [[]], document_chunks := [(1, "c")], recent_knowledge_searches := [] }

/-- An embedding collaborator answering the zero-dimensional vector for every
input. -/
def encQNil : String → Except String Vec := fun _ => .ok []

/-- A `documents` table with two chunk rows `"a"` (id 1) and `"b"` (id 2). -/
def dbTwo : List DbRow :=
  [{ id := 1, title := "A", content := "a", source := "S", chunk_id := 0 },
   { id := 2, title := "B", content := "b", source := "S", chunk_id := 0 }]

/-- An embedding collaborator giving the corpus `["a", "b"]` the raw
(unnormalized) embeddings `[1, 0]` and `[2, 0]`. -/
def encTwo : List String → Except String (List Vec) := fun _ => .ok [[1, 0], [2, 0]]

/-- The query-side embedding of chunk 1's own content `"a"` under the same
collaborator. -/
def encQTwo : String → Except String Vec := fun _ => .ok [1, 0]

/-- An embedding collaborator returning the raw vector `[3, 4]` (norm 5) for
every input, as a black-box embedding model may. -/
def encNonUnit : List String → Except String (List Vec) := fun _ => .ok [[3, 4]]

/-- A generative collaborator whose response matches no intent label. -/
def genBlank : String → Except String String := fun _ => .ok ""

/-- A query-embedding collaborator that raises. -/
def encQFail : String → Except String Vec := fun _ => .error "boom"

/-- A calendar-branch interior that returns an empty rendering. -/
def calNoop : Nat → Except CalendarErr String := fun _ => .ok ""

/-- A Gmail-branch interior that returns an empty rendering. -/
def gmailNoop : String → Except String String := fun _ => .ok ""

/-! ### Helper lemmas -/

/-- Length of the chunk loop output: starting at index `i` with `i + O`
strictly below the word count, the loop emits
`(length - i - O - 1) / (S - O) + 1` chunks, provided the fuel covers the
remaining words. -/
theorem chunkLoop_len (words : List String) (S O : Nat) (hSO : O < S) :
    ∀ fuel i, i + O < words.length → words.length - i ≤ fuel →
      (chunkLoop words S (S - O) fuel i).length
        = (words.length - i - O - 1) / (S - O) + 1 := by
  intro fuel
  induction fuel with
  | zero => intro i h1 h2; omega
  | succ n ih =>
    intro i h1 h2
    have hi : i < words.length := by omega
    by_cases hb : words.length ≤ i + S
    · have hz : (words.length - i - O - 1) / (S - O) = 0 :=
        Nat.div_eq_of_lt (by omega)
      simp [chunkLoop, hi, hb, hz]
    · have hrec : chunkLoop words S (S - O) (n + 1) i
          = joinSpace ((words.drop i).take S)
            :: chunkLoop words S (S - O) n (i + (S - O)) := by
        simp [chunkLoop, hi, hb]
      rw [hrec, List.length_cons, ih (i + (S - O)) (by omega) (by omega)]
      have hx : S - O ≤ words.length - i - O - 1 := by omega
      have h3 : words.length - (i + (S - O)) - O - 1
          = words.length - i - O - 1 - (S - O) := by omega
      rw [h3, Nat.div_eq_sub_div (by omega) hx]

/-- The ceiling in the specification formula agrees with the natural-number
expression `(W - O - 1) / (S - O) + 1` whenever `O < W` (and `O < S`). -/
theorem claimedCount_eq_natDiv (W S O : Nat) (hSO : O < S) (hOW : O < W) :
    claimedCount W S O = ((W - O - 1) / (S - O) + 1 : Nat) := by
  have hb : 0 < S - O := by omega
  have ha1 : 1 ≤ W - O := by omega
  have h1 : (((W - O : Nat) : Rat)) = (W : Rat) - (O : Rat) :=
    Nat.cast_sub (le_of_lt hOW)
  have h2 : (((S - O : Nat) : Rat)) = (S : Rat) - (O : Rat) :=
    Nat.cast_sub (le_of_lt hSO)
  rw [claimedCount, ← h1, ← h2]
  generalize hga : W - O = a at *
  generalize hgb : S - O = b at *
  have hbq : (0 : Rat) < (b : Rat) := by exact_mod_cast hb
  have hq1 : ((a - 1) / b) * b < a := by
    have h5 := Nat.div_mul_le_self (a - 1) b
    omega
  have hq2 : a ≤ ((a - 1) / b + 1) * b := by
    have h6 := Nat.div_add_mod (a - 1) b
    have h7 := Nat.mod_lt (a - 1) hb
    have h8 : ((a - 1) / b + 1) * b = b * ((a - 1) / b) + b := by ring
    omega
  rw [Int.ceil_eq_iff]
  constructor
  · rw [Int.cast_natCast, lt_div_iff₀ hbq]
    have e1 : (((a - 1) / b + 1 : Nat) : Rat) - 1 = (((a - 1) / b : Nat) : Rat) := by
      push_cast
      ring
    rw [e1]
    exact_mod_cast hq1
  · rw [Int.cast_natCast, div_le_iff₀ hbq]
    exact_mod_cast hq2

/-! ### Claim C2 -/

/-- C2, counterexample.  The claim asserts `ceil((W - O) / (S - O))` chunks for
every `W > 0` and that a short input yields one chunk equal to the whole
input.  For the one-word input `"x"` with `S = 3`, `O = 1` the code produces
one chunk while the formula gives `ceil((1-1)/2) = 0`; and for the input
`"a  b"` (two tokens, double space) the single chunk produced is the
single-space join `"a b"`, not the whole input. -/
theorem c2_counterexample :
    pySplit "x" = ["x"] ∧ (chunk_text "x" 3 1).length = 1
      ∧ claimedCount 1 3 1 = 0
      ∧ chunk_text "a  b" 3 1 = ["a b"] ∧ "a b" ≠ "a  b" := by
  refine ⟨by decide, by decide, ?_, by decide, by decide⟩
  norm_num [claimedCount]

/-- C2, amended.  For whitespace word count `W` and `O < S`: an input with no
words yields zero chunks; when `O < W` the chunk count equals
`ceil((W - O) / (S - O))` (so the spec formula is correct exactly on that
range — for `0 < W ≤ O` the code yields one chunk while the formula gives
zero or less); and a non-empty input of fewer than `S` words yields exactly
one chunk, namely the single-space join of its words. -/
theorem c2_amended (text : String) (S O : Nat) (hSO : O < S) :
    (pySplit text = [] → chunk_text text S O = [])
    ∧ (O < (pySplit text).length →
        ((chunk_text text S O).length : Int) = claimedCount (pySplit text).length S O)
    ∧ (pySplit text ≠ [] → (pySplit text).length < S →
        chunk_text text S O = [joinSpace (pySplit text)]) := by
  refine ⟨?_, ?_, ?_⟩
  · intro h
    simp [chunk_text, h, chunkLoop]
  · intro hOW
    have hlen := chunkLoop_len (pySplit text) S O hSO (pySplit text).length 0
      (by omega) (by omega)
    rw [claimedCount_eq_natDiv (pySplit text).length S O hSO hOW]
    simp only [chunk_text]
    rw [hlen, Nat.sub_zero]
  · intro hne hlt
    obtain ⟨w, ws, hw⟩ : ∃ w ws, pySplit text = w :: ws := by
      cases hc : pySplit text with
      | nil => exact absurd hc hne
      | cons w ws => exact ⟨w, ws, rfl⟩
    rw [hw] at hlt
    have hle : ws.length + 1 ≤ S := by
      simp only [List.length_cons] at hlt
      omega
    have htake : ((w :: ws) : List String).take S = w :: ws :=
      List.take_of_length_le (by simp; omega)
    simp only [chunk_text, hw, List.length_cons]
    simp [chunkLoop, hle, htake]

/-- C2, witness: the amended count formula evaluated on the three-word input
`"a b c"` with `S = 2`, `O = 1`. -/
theorem c2_witness :
    1 < 2 ∧ 1 < (pySplit "a b c").length
      ∧ ((chunk_text "a b c" 2 1).length : Int) = claimedCount (pySplit "a b c").length 2 1 :=
  ⟨by decide, by decide, (c2_amended "a b c" 2 1 (by decide)).2.1 (by decide)⟩

/-! ### Claim C8 -/

/-- C8: rebuilding over an empty `documents` table returns before touching any
state (a no-op, so an absent index stays absent), and `search_knowledge_base`
on a state whose index is absent or whose parallel list is empty returns the
empty-knowledge-base sentinel with the state unchanged — as a plain value,
never an exception, whatever the embedding collaborator would have done. -/
theorem c8_empty_behavior :
    (∀ (nf : List Vec → List Vec) (enc : List String → Except String (List Vec))
        (st : AgentState), build_vector_index nf enc [] st = (st, none))
    ∧ (∀ (nf : Vec → Vec) (encQ : String → Except String Vec) (db : List DbRow)
        (now : Nat) (st : AgentState) (query : String) (k : Nat),
        st.vector_index = none ∨ st.document_chunks = [] →
        search_knowledge_base nf encQ db now st query k = .ok (emptyKbMsg, st)) := by
  constructor
  · intro nf enc st
    simp [build_vector_index]
  · intro nf encQ db now st query k h
    cases hv : st.vector_index with
    | none => simp [search_knowledge_base, hv]
    | some stored =>
      rcases h with h | h
      · rw [hv] at h
        exact absurd h (by simp)
      · simp [search_knowledge_base, hv, h]

/-- C8, witness: a search against the initial state (no index, no chunks) with
an embedding collaborator that would raise still returns the sentinel. -/
theorem c8_witness :
    search_knowledge_base (fun v => v) encQFail [] 0 stEmpty "q" 3
      = .ok (emptyKbMsg, stEmpty) :=
  c8_empty_behavior.2 (fun v => v) encQFail [] 0 stEmpty "q" 3 (Or.inl rfl)

/-! ### Claim C7 -/

/-- C7, counterexample.  Rebuilding over the table `dbNew` from the state
`stOld` with an embedding collaborator that raises leaves the state divergent:
the parallel list has already been replaced with the new rows while the old
index is still installed, and the exception propagates — contradicting the
claim that a failed rebuild leaves the previously installed index and parallel
list unchanged. -/
theorem c7_counterexample :
    (build_vector_index (fun v => v) (fun _ => Except.error "boom") dbNew stOld).1.document_chunks
        = [(2, "new")]
    ∧ stOld.document_chunks = [(1, "old")]
    ∧ (build_vector_index (fun v => v) (fun _ => Except.error "boom") dbNew stOld).1.vector_index
        = stOld.vector_index
    ∧ (build_vector_index (fun v => v) (fun _ => Except.error "boom") dbNew stOld).2
        = some "boom" :=
  ⟨rfl, rfl, rfl, rfl⟩

/-- C7, amended.  The rebuild is not atomic: over a non-empty table, the
parallel `(chunk_id, content)` list is replaced before the embedding
collaborator is consulted, so when that call raises, the method terminates
with the new parallel list installed, the prior `vector_index` still in place,
and the exception propagating to the caller. -/
theorem c7_amended (nf : List Vec → List Vec)
    (enc : List String → Except String (List Vec)) (db : List DbRow)
    (st : AgentState) (e : String) (hdb : db ≠ [])
    (henc : enc (db.map fun r => r.content) = .error e) :
    build_vector_index nf enc db st
      = ({ st with document_chunks := db.map fun r => (r.id, r.content) }, some e) := by
  have hrows : (db.map fun r => (r.id, r.content)).isEmpty = false := by
    cases db with
    | nil => exact absurd rfl hdb
    | cons a l => rfl
  have hmap : ((db.map fun r => (r.id, r.content)).map Prod.snd)
      = db.map fun r => r.content := by
    rw [List.map_map]
    rfl
  simp [build_vector_index, hrows, hmap, henc]

/-- C7, witness: the amended statement evaluated on the concrete fixture. -/
theorem c7_witness :
    dbNew ≠ [] ∧
    build_vector_index (fun v => v) (fun _ => Except.error "down") dbNew stOld
      = ({ stOld with document_chunks := dbNew.map fun r => (r.id, r.content) }, some "down") :=
  ⟨by decide, c7_amended (fun v => v) (fun _ => Except.error "down") dbNew stOld "down"
    (by decide) rfl⟩

/-! ### Claim C5 -/

/-- C5, counterexample.  `add_document` has no `return` statement: on the
concrete ingestion of `"hello world"` (one chunk) it returns Python `None`
(`Except.ok none`), not the chunk count `1` that the claim asserts. -/
theorem c5_counterexample :
    (add_document (fun v => v) encNonUnit [] 1 stEmpty "T" "hello world" "manual").2.2
        = Except.ok none
    ∧ (chunk_text "hello world" 500 50).length = 1
    ∧ (Except.ok none : Except String (Option Nat)) ≠ Except.ok (some 1) :=
  ⟨rfl, by decide, by intro h; exact Option.noConfusion (Except.ok.inj h)⟩

/-- C5, amended.  `add_document` inserts exactly one row per chunk of
`chunk_text(content, 500, 50)` (it reports that count only in a printed
message), and its return value is never a chunk count: it is Python `None`
when the rebuild succeeds, and the method propagates the exception when the
rebuild raises. -/
theorem c5_amended (nf : List Vec → List Vec)
    (enc : List String → Except String (List Vec)) (db : List DbRow)
    (nextId : Int) (st : AgentState) (title content source : String) :
    (add_document nf enc db nextId st title content source).1.length
        = db.length + (chunk_text content 500 50).length
    ∧ ((add_document nf enc db nextId st title content source).2.2 = Except.ok none
        ∨ ∃ e, (add_document nf enc db nextId st title content source).2.2
            = Except.error e) := by
  constructor
  · simp [add_document]
  · simp only [add_document]
    split
    · right
      exact ⟨_, rfl⟩
    · left
      rfl

/-! ### Claim C1 -/

/-- C1, code evaluation at a failing input.  Because NumPy `astype` returns a
copy, `faiss.normalize_L2(embeddings.astype('float32'))` normalizes a
discarded temporary: whatever the normalization function does (it is
universally quantified here), the vector stored in the index for a chunk
whose raw embedding is `[3, 4]` is `[3, 4]` itself, whose squared norm is
`25`, not `1`; and searching with the same (equally unnormalized) query
embedding reports the inner product `25`, outside `[-1, 1]`. -/
theorem c1_code_eval (nfL : List Vec → List Vec) :
    (build_vector_index nfL encNonUnit dbOne stEmpty).1.vector_index
        = some [[(3 : Rat), 4]]
    ∧ sumSq [(3 : Rat), 4] = 25 ∧ ((25 : Rat) ≠ 1)
    ∧ faissSearchIP [[(3 : Rat), 4]] (astypeFloat32 [(3 : Rat), 4]) 1 = [(0, 25)]
    ∧ ¬ ((25 : Rat) ≤ 1) :=
  ⟨rfl, by norm_num [sumSq], by norm_num,
   by norm_num [faissSearchIP, innerProd, astypeFloat32, sortByScoreDesc, insertByScore,
        List.replicate, List.enum, List.enumFrom, List.zipWith, List.sum, List.foldr,
        List.take],
   by norm_num⟩

/-! ### Claim C3 -/

/-- C3, code evaluation at a failing input.  With a single stored chunk and
the default `top_k = 3`, FAISS pads the missing neighbours with label `-1`;
the guard `idx < len(self.document_chunks)` admits `-1`, and Python
subscripting resolves `document_chunks[-1]` to the last chunk, so the two
unresolvable padding hits are not omitted: the query returns three results
(two of them bogus copies of the sole chunk) instead of the one result the
claim requires. -/
theorem c3_code_eval :
    faissSearchIP [[(1 : Rat)]] (astypeFloat32 [(1 : Rat)]) 3
        = [(0, 1), (-1, padScore), (-1, padScore)]
    ∧ resolveHits dbOne [(1, "c")] (faissSearchIP [[(1 : Rat)]] (astypeFloat32 [(1 : Rat)]) 3)
        = Except.ok [⟨"c", "T", "S", 1⟩, ⟨"c", "T", "S", padScore⟩, ⟨"c", "T", "S", padScore⟩]
    ∧ Except.ok [(⟨"c", "T", "S", 1⟩ : RetrievalResult)]
        ≠ resolveHits dbOne [(1, "c")] (faissSearchIP [[(1 : Rat)]] (astypeFloat32 [(1 : Rat)]) 3) := by
  have hb : resolveHits dbOne [(1, "c")] (faissSearchIP [[(1 : Rat)]] (astypeFloat32 [(1 : Rat)]) 3)
      = Except.ok [⟨"c", "T", "S", 1⟩, ⟨"c", "T", "S", padScore⟩, ⟨"c", "T", "S", padScore⟩] := by
    norm_num [faissSearchIP, innerProd, astypeFloat32, sortByScoreDesc, insertByScore,
      List.replicate, List.enum, List.enumFrom, List.zipWith, List.sum, List.foldr,
      List.take, resolveHits, resolveHit, pyGet, dbOne, List.find?]
    rfl
  refine ⟨?_, hb, ?_⟩
  · norm_num [faissSearchIP, innerProd, astypeFloat32, sortByScoreDesc, insertByScore,
      List.replicate, List.enum, List.enumFrom, List.zipWith, List.sum, List.foldr,
      List.take]
  · rw [hb]
    intro h
    exact absurd (congrArg List.length (Except.ok.inj h)) (by decide)

/-! ### Claim C4 -/

/-- C4, code evaluation at a failing input.  Two chunks `"a"`, `"b"` receive
the raw embeddings `[1, 0]` and `[2, 0]` (the normalization is discarded, see
C1).  Searching with chunk 1's own content `"a"` (query embedding `[1, 0]`)
scores chunk 2 higher (`2 > 1`), so the top result is chunk 2 with score `2`,
not chunk 1 with score about `1` as the claim requires. -/
theorem c4_code_eval (nfL : List Vec → List Vec) (nfV : Vec → Vec) :
    (build_vector_index nfL encTwo dbTwo stEmpty).1
        = { vector_index := some [[1, 0], [2, 0]],
            document_chunks := [(1, "a"), (2, "b")],
            recent_knowledge_searches := [] }
    ∧ searchResults nfV encQTwo dbTwo [[1, 0], [2, 0]] [(1, "a"), (2, "b")] "a" 3
        = Except.ok [⟨"b", "B", "S", 2⟩, ⟨"a", "A", "S", 1⟩, ⟨"b", "B", "S", padScore⟩]
    ∧ ((2 : Rat) ≠ 1) ∧ "B" ≠ "A" :=
  ⟨rfl,
   by
     norm_num [searchResults, encQTwo, Except.bind, bind, Except.instMonad, faissSearchIP,
       innerProd, astypeFloat32, sortByScoreDesc, insertByScore, List.replicate, List.enum,
       List.enumFrom, List.zipWith, List.sum, List.foldr, List.take, resolveHits, resolveHit,
       pyGet, dbTwo, List.find?]
     rfl,
   by norm_num, by decide⟩

/-- Helper: the first element surviving `dropWhile p` fails `p`. -/
theorem dropWhile_cons_pred_false {α : Type} (p : α → Bool) :
    ∀ (l : List α) (c : α) (cs : List α), l.dropWhile p = c :: cs → p c = false := by
  intro l
  induction l with
  | nil => intro c cs h; cases h
  | cons a t ih =>
    intro c cs h
    rw [List.dropWhile_cons] at h
    by_cases hp : p a = true
    · rw [if_pos hp] at h
      exact ih c cs h
    · rw [if_neg hp] at h
      injection h with h1 h2
      subst h1
      simpa using hp

/-! ### Claim C9 -/

/-- C9, counterexample.  The claim asserts the result is always a positive
integer, but a collaborator response of `"0"` (its first integer token being
`0`) makes `extract_time_context` return `0`. -/
theorem c9_counterexample :
    extract_time_context (fun _ => .ok "0") "no time mentioned at all" = 0
    ∧ ¬ (0 < extract_time_context (fun _ => .ok "0") "no time mentioned at all") :=
  ⟨rfl, by decide⟩

/-- C9, amended.  For every message and collaborator behaviour, the function
is total (so it cannot raise) and its result is determined by the stripped
response: either the response has no decimal digit and the result is the
default `7`, or the response decomposes as a digit-free part, a first maximal
digit run, and a remainder not starting with a digit, and the result is the
decimal value of that run — a nonnegative integer that is zero exactly when
the first integer token is `0` (positivity does not hold in general). -/
theorem c9_amended (gen : String → Except String String) (message : String) :
    (extract_time_context gen message = 7
      ∧ ∀ c ∈ (pyStrip (call_ollama gen (timePrompt message))).data, c.isDigit = false)
    ∨ (∃ pre run rest,
        (pyStrip (call_ollama gen (timePrompt message))).data = pre ++ run ++ rest
        ∧ (∀ c ∈ pre, c.isDigit = false)
        ∧ run ≠ []
        ∧ (∀ c ∈ run, c.isDigit = true)
        ∧ (∀ d ∈ rest.head?, d.isDigit = false)
        ∧ extract_time_context gen message = natOfDigits run) := by
  cases hd : (pyStrip (call_ollama gen (timePrompt message))).data.dropWhile
      (fun c => !c.isDigit) with
  | nil =>
    left
    constructor
    · simp only [extract_time_context, firstDigitRun, hd]
    · intro c hc
      have h2 := List.dropWhile_eq_nil_iff.mp hd c hc
      simpa using h2
  | cons c cs =>
    have hcdig : c.isDigit = true := by
      have := dropWhile_cons_pred_false (fun c => !c.isDigit) _ c cs hd
      simpa using this
    right
    refine ⟨(pyStrip (call_ollama gen (timePrompt message))).data.takeWhile
        (fun c => !c.isDigit),
      (c :: cs).takeWhile Char.isDigit, (c :: cs).dropWhile Char.isDigit,
      ?_, ?_, ?_, ?_, ?_, ?_⟩
    · conv_lhs => rw [← List.takeWhile_append_dropWhile (fun c => !c.isDigit)
        ((pyStrip (call_ollama gen (timePrompt message))).data)]
      rw [hd]
      conv_lhs => rw [← List.takeWhile_append_dropWhile Char.isDigit (c :: cs)]
      rw [List.append_assoc]
    · intro x hx
      have := List.mem_takeWhile_imp hx
      simpa using this
    · rw [List.takeWhile_cons_of_pos hcdig]
      simp
    · intro x hx
      have := List.mem_takeWhile_imp hx
      simpa using this
    · intro d hdmem
      cases hr : (c :: cs).dropWhile Char.isDigit with
      | nil =>
        rw [hr] at hdmem
        simp at hdmem
      | cons d2 ds =>
        rw [hr] at hdmem
        simp at hdmem
        subst hdmem
        exact dropWhile_cons_pred_false Char.isDigit _ d2 ds hr
    · simp only [extract_time_context, firstDigitRun, hd]

/-! ### Claim C10 -/

/-- C10: a search that reaches the hit-resolution loop and produces a
non-empty `results` list returns the formatted block and a state whose
hidden `recent_knowledge_searches` list is the previous list with one new
record `(query, results, timestamp)` appended and then truncated to its last
five entries: the retained list is a suffix of the appended list and its
length never exceeds five — so `search_knowledge_base` mutates state it was
not passed as an argument. -/
theorem c10_recent_searches (nf : Vec → Vec) (encQ : String → Except String Vec)
    (db : List DbRow) (now : Nat) (st : AgentState) (query : String) (k : Nat)
    (stored : List Vec) (results : List RetrievalResult)
    (hv : st.vector_index = some stored)
    (hc : st.document_chunks.length ≠ 0)
    (hres : searchResults nf encQ db stored st.document_chunks query k = .ok results)
    (hne : results ≠ []) :
    search_knowledge_base nf encQ db now st query k
      = .ok (formatResults results,
          { st with recent_knowledge_searches :=
              (List.drop ((st.recent_knowledge_searches ++ [SearchRec.mk query results now]).length - 5)
                (st.recent_knowledge_searches ++ [SearchRec.mk query results now])) })
    ∧ ((st.recent_knowledge_searches ++ [SearchRec.mk query results now]).drop
        ((st.recent_knowledge_searches ++ [SearchRec.mk query results now]).length - 5)).length ≤ 5
    ∧ (st.recent_knowledge_searches ++ [SearchRec.mk query results now]).drop
        ((st.recent_knowledge_searches ++ [SearchRec.mk query results now]).length - 5)
        <:+ st.recent_knowledge_searches ++ [SearchRec.mk query results now] := by
  have hie : results.isEmpty = false := by
    cases results with
    | nil => exact absurd rfl hne
    | cons a l => rfl
  refine ⟨?_, ?_, List.drop_suffix _ _⟩
  · simp [search_knowledge_base, hv, hc, hres, hie, hne, Except.bind, bind, Except.instMonad]
  · rw [List.length_drop]
    omega

/-- C10, witness: a concrete successful search over the one-chunk fixture
appends its record and the state visibly changes. -/
theorem c10_witness :
    search_knowledge_base (fun v => v) encQNil dbOne 0 stOne "q" 1
      = .ok (formatResults [RetrievalResult.mk "c" "T" "S" 0],
          { stOne with recent_knowledge_searches :=
              (List.drop
                ((stOne.recent_knowledge_searches ++ [SearchRec.mk "q" [RetrievalResult.mk "c" "T" "S" 0] 0]).length
                  - 5)
                (stOne.recent_knowledge_searches ++ [SearchRec.mk "q" [RetrievalResult.mk "c" "T" "S" 0] 0])) })
    ∧ ((stOne.recent_knowledge_searches ++ [SearchRec.mk "q" [RetrievalResult.mk "c" "T" "S" 0] 0]).drop
        ((stOne.recent_knowledge_searches ++ [SearchRec.mk "q" [RetrievalResult.mk "c" "T" "S" 0] 0]).length
          - 5)).length ≤ 5 :=
  ⟨(c10_recent_searches (fun v => v) encQNil dbOne 0 stOne "q" 1 [[]] [RetrievalResult.mk "c" "T" "S" 0]
      rfl (by decide) rfl (by decide)).1,
   (c10_recent_searches (fun v => v) encQNil dbOne 0 stOne "q" 1 [[]] [RetrievalResult.mk "c" "T" "S" 0]
      rfl (by decide) rfl (by decide)).2.1⟩

/-! ### Claim C6 -/

/-- C6, counterexample.  `add_document` has no `try`/`except`: with a storage
or embedding collaborator that raises during the index rebuild, the concrete
call propagates the exception to the caller instead of returning a
user-facing string outcome. -/
theorem c6_counterexample :
    (add_document (fun v => v) (fun _ => Except.error "disk failure") dbOne 5 stEmpty
        "T" "more text" "manual").2.2 = Except.error "disk failure" := rfl

/-- C6, amended.  `chat` does catch collaborator exceptions at its boundary:
when the dispatch reaches the knowledge-search branch and the embedding
collaborator raises `e`, `chat` returns the apologetic string carrying `e`
(with the entry state), rather than propagating.  `add_document` does not:
over a non-empty table, an embedding collaborator that raises `e` makes
`add_document` itself terminate with that exception. -/
theorem c6_amended :
    (∀ (gen : String → Except String String) (nf : Vec → Vec)
        (encQ : String → Except String Vec) (db : List DbRow) (now : Nat)
        (calC : Bool) (calB : Nat → Except CalendarErr String) (gmC : Bool)
        (gmB : String → Except String String) (st : AgentState)
        (message : String) (history : List (String × String)) (e : String)
        (stored : List Vec),
      detect_user_intent_with_context gen message history = "KNOWLEDGE_SEARCH" →
      st.vector_index = some stored →
      st.document_chunks.length ≠ 0 →
      encQ message = .error e →
      chat gen nf encQ db now calC calB gmC gmB st message history
        = ("Sorry, I encountered an error: " ++ e, st))
    ∧ (∀ (nf : List Vec → List Vec) (db : List DbRow) (nextId : Int)
        (st : AgentState) (title content source e : String),
      db ≠ [] →
      (add_document nf (fun _ => .error e) db nextId st title content source).2.2
        = Except.error e) := by
  constructor
  · intro gen nf encQ db now calC calB gmC gmB st message history e stored
      hintent hv hc henc
    have hbody : chat_body gen nf encQ db now calC calB gmC gmB st message history
        = .error e := by
      simp [chat_body, hintent, search_knowledge_base, searchResults, hv, hc, henc,
        Except.bind, bind, Except.instMonad]
    simp [chat, hbody]
  · intro nf db nextId st title content source e hdb
    simp [add_document, build_vector_index, hdb]

/-- C6, witness: both halves of the amended statement at concrete inputs — the
chat dispatch turns the raised `"boom"` into the apologetic string, and
`add_document` propagates the raised `"x"`. -/
theorem c6_witness :
    chat genBlank (fun v => v) encQFail dbOne 0 false calNoop false gmailNoop stOne
        "query" [] = ("Sorry, I encountered an error: " ++ "boom", stOne)
    ∧ (add_document (fun v => v) (fun _ => .error "x") dbOne 1 stEmpty "T" "c" "m").2.2
        = Except.error "x" :=
  ⟨c6_amended.1 genBlank (fun v => v) encQFail dbOne 0 false calNoop false gmailNoop stOne
      "query" [] "boom" [[]] rfl rfl (by decide) rfl,
   c6_amended.2 (fun v => v) dbOne 1 stEmpty "T" "c" "m" "x" (by decide)⟩
